import Mathlib

/-!
Verification of the Stripe failed-payment monitor (`src/server.js`) against its
natural-language specification.

The server is a single Express application. We shallowly embed it:

* JavaScript runtime values that flow through the handlers are modelled by the
  inductive type `JsValue` (JSON values plus `undefined`).  Property access,
  truthiness, `||`-defaulting, template-literal stringification, `?.` optional
  chaining and `.toUpperCase()` are modelled by small total functions; the only
  modelled throw sites are property access on `null`/`undefined`, calling
  `.toUpperCase()` on a non-string, and calling `.replace` on a non-string,
  which is exactly where the handlers can throw.  Throwing JavaScript code is
  embedded in `Except String` carrying the error message (`error.message`).
* The two external collaborators are opaque: the OpenAI chat-completion call is
  abstracted by `LMResult` (either the call rejects, or it returns message
  content whose `JSON.parse` outcome is recorded), and `transporter.sendMail`
  by `MailResult`.  `JSON.parse` of the inbound webhook body is likewise
  abstracted by its outcome, `Except String JsValue`.
* `new Date().toISOString()` is abstracted by a timestamp string parameter
  `ts`; timestamps never influence control flow.
* The in-memory `logs` array is modelled as a `List LogEntry`; every handler
  returns the ordered list of `addLog` calls it performs (`logCalls`), and the
  buffer discipline itself (`logs.push` followed by conditional `logs.shift()`)
  is the function `pushLog`.
-/

set_option autoImplicit false

/-- JavaScript runtime values reachable in this program: the JSON values plus
`undefined`.  Numbers are restricted to integers (all numeric data in this
program are integer minor currency units; the modelled string operations never
produce non-integer numbers). -/
inductive JsValue where
  | null
  | undef
  | bool (b : Bool)
  | num (n : Int)
  | str (s : String)
  | arr (elems : List JsValue)
  | obj (fields : List (String × JsValue))

/-- Look a key up in an object's field list (first binding wins; parsed JSON
objects have distinct keys).  A missing key reads as `undefined`. -/
def jsLookup (fields : List (String × JsValue)) (k : String) : JsValue :=
  match fields with
  | [] => JsValue.undef
  | (k', v) :: rest => if k' = k then v else jsLookup rest k

/-- Plain property access `v.k`.  Throws a `TypeError` on `null`/`undefined`
(the thrown message text abbreviates Node's); on any other non-object value the
access yields `undefined`. -/
def getProp (v : JsValue) (k : String) : Except String JsValue :=
  match v with
  | JsValue.null => Except.error ("Cannot read properties of null (reading " ++ k ++ ")")
  | JsValue.undef => Except.error ("Cannot read properties of undefined (reading " ++ k ++ ")")
  | JsValue.obj fields => Except.ok (jsLookup fields k)
  | _ => Except.ok JsValue.undef

/-- Optional-chained property access `v?.k`: `null`/`undefined` short-circuit
to `undefined` instead of throwing. -/
def getPropOpt (v : JsValue) (k : String) : JsValue :=
  match v with
  | JsValue.null => JsValue.undef
  | JsValue.undef => JsValue.undef
  | JsValue.obj fields => jsLookup fields k
  | _ => JsValue.undef

/-- JavaScript truthiness of the modelled values. -/
def jsTruthy (v : JsValue) : Bool :=
  match v with
  | JsValue.null => false
  | JsValue.undef => false
  | JsValue.bool b => b
  | JsValue.num n => n != 0
  | JsValue.str s => s != ""
  | JsValue.arr _ => true
  | JsValue.obj _ => true

/-- The `a || b` defaulting operator. -/
def jsOr (a b : JsValue) : JsValue :=
  if jsTruthy a then a else b

/-- Template-literal stringification of a value, as in `` `${v}` ``.
Arrays stringify as their elements joined by commas with `null`/`undefined`
elements rendered empty, matching `Array.prototype.toString`. -/
def jsTemplate : JsValue → String
  | JsValue.null => "null"
  | JsValue.undef => "undefined"
  | JsValue.bool b => cond b "true" "false"
  | JsValue.num n => toString n
  | JsValue.str s => s
  | JsValue.obj _ => "[object Object]"
  | JsValue.arr elems => jsTemplateList elems
where
  jsTemplateList : List JsValue → String
  | [] => ""
  | x :: xs =>
    (match x with
     | JsValue.null => ""
     | JsValue.undef => ""
     | v => jsTemplate v)
    ++ (match xs with
        | [] => ""
        | _ :: _ => "," ++ jsTemplateList xs)

/-- Render a natural number padded to at least two digits. -/
def twoDigits (n : Nat) : String :=
  if n < 10 then "0" ++ toString n else toString n

/-- `(a / 100).toFixed(2)` for an integer number of minor units `a`: quotient
before the decimal point, the two-digit remainder after it.  (This is the exact
rational value; IEEE-754 double rounding artifacts, visible only for
astronomically large amounts, are not modelled.) -/
def toFixedTwoOfCents (a : Int) : String :=
  (if a < 0 then "-" else "") ++ toString (a.natAbs / 100) ++ "." ++ twoDigits (a.natAbs % 100)

/-- `(v / 100).toFixed(2)` as applied to the `amount` property, for every value
the property may hold.  `null`, booleans and numbers coerce numerically as in
JavaScript; other non-numbers render as `NaN` (string/array numeric coercion of
a non-numeric `amount` is not modelled — the trusted event shape makes `amount`
a number). -/
def jsAmountFixed (v : JsValue) : String :=
  match v with
  | JsValue.num a => toFixedTwoOfCents a
  | JsValue.null => "0.00"
  | JsValue.bool b => cond b "0.01" "0.00"
  | _ => "NaN"

/-- `v?.toUpperCase()`: `null`/`undefined` short-circuit to `undefined`, a
string is upper-cased, anything else throws a `TypeError`. -/
def jsToUpperCaseOpt (v : JsValue) : Except String JsValue :=
  match v with
  | JsValue.null => Except.ok JsValue.undef
  | JsValue.undef => Except.ok JsValue.undef
  | JsValue.str s => Except.ok (JsValue.str s.toUpper)
  | _ => Except.error "v.toUpperCase is not a function"

/-- `v.replace(/\n/g, <br>)` as used on `emailContent.body`: replaces every
newline in a string, throws a `TypeError` on a non-string. -/
def jsReplaceNewlines (v : JsValue) : Except String String :=
  match v with
  | JsValue.str s => Except.ok (s.replace "\n" "<br>")
  | _ => Except.error "v.replace is not a function"

/-- An environment variable read `process.env.X || d`: the variable is either
unset or a string, and the empty string is falsy. -/
def jsEnvOr (v : Option String) (d : String) : String :=
  match v with
  | none => d
  | some s => if s = "" then d else s

/-- `!!process.env.X`. -/
def envTruthy (v : Option String) : Bool :=
  match v with
  | none => false
  | some s => s != ""

/-- The relevant environment configuration (field names are the environment
variable names read by `src/server.js`). -/
structure Env where
  STRIPE_SECRET_KEY : Option String
  OPENAI_API_KEY : Option String
  ALERT_EMAIL : Option String
  EMAIL_PASSWORD : Option String

/-- One entry of the in-memory log (`src/server.js` lines 31-36). -/
structure LogEntry where
  timestamp : String
  level : String
  message : String
  data : JsValue

/-- Construct the entry `addLog` creates (timestamp abstracted as `ts`). -/
def mkEntry (ts level message : String) (data : JsValue) : LogEntry :=
  LogEntry.mk ts level message data

/-- The buffer step performed by `addLog` (lines 37-42): push the entry, then
if the length exceeds 100, shift off the single oldest entry.  (The mirrored
`console.log` is a side effect outside the data contract.) -/
def pushLog (logs : List LogEntry) (e : LogEntry) : List LogEntry :=
  let l := logs ++ [e]
  if l.length > 100 then l.drop 1 else l

/-- `addLog(level, message, data)` (lines 30-43), with the wall-clock
timestamp supplied as `ts`. -/
def addLog (ts level message : String) (data : JsValue) (logs : List LogEntry) : List LogEntry :=
  pushLog logs (mkEntry ts level message data)

/-- Number of warning-level entries in a list of log entries. -/
def warningCount (es : List LogEntry) : Nat :=
  (es.filter (fun e => e.level == "warning")).length

/-- Outcome of the external OpenAI chat-completion call (`src/server.js` lines
65-71), abstracted at the collaborator boundary: either the awaited call
rejects/throws (network failure, timeout, non-2xx, malformed completion) with
an error message, or it resolves and `JSON.parse` applied to the returned
message content has the recorded outcome (`Except.error` = unparseable
response text, `Except.ok v` = the parsed value). -/
inductive LMResult where
  | fail (errMsg : String)
  | respond (parsed : Except String JsValue)

/-- Outcome of the external `transporter.sendMail` call (line 109): resolves
with a delivery identifier, or rejects with an error message. -/
inductive MailResult where
  | sent (messageId : String)
  | fail (errMsg : String)

/-- `failedPayment.customer?.name || 'Unknown'` applied to the customer value
(prompt line 50 and fallback body line 80). -/
def substCustomerName (customer : JsValue) : String :=
  jsTemplate (jsOr (getPropOpt customer "name") (JsValue.str "Unknown"))

/-- `failedPayment.customer?.email || 'Not provided'` (prompt line 51 and
fallback body line 80). -/
def substCustomerEmail (customer : JsValue) : String :=
  jsTemplate (jsOr (getPropOpt customer "email") (JsValue.str "Not provided"))

/-- `failedPayment.customer?.email || 'Unknown Customer'` (fallback subject
line 76). -/
def substSubjectEmail (customer : JsValue) : String :=
  jsTemplate (jsOr (getPropOpt customer "email") (JsValue.str "Unknown Customer"))

/-- `failedPayment.currency?.toUpperCase() || 'USD'` applied to the already
upper-cased currency value (prompt line 53 and fallback body line 81). -/
def substCurrency (currencyUpper : JsValue) : String :=
  jsTemplate (jsOr currencyUpper (JsValue.str "USD"))

/-- `failedPayment.failure_code || 'Unknown'` (prompt line 54 and fallback
body line 83). -/
def substFailureCode (failureCode : JsValue) : String :=
  jsTemplate (jsOr failureCode (JsValue.str "Unknown"))

/-- `failedPayment.failure_message || 'No details provided'` (prompt line 55
and fallback body line 82). -/
def substFailureReason (failureMessage : JsValue) : String :=
  jsTemplate (jsOr failureMessage (JsValue.str "No details provided"))

/-- `failedPayment.payment_method_details?.type || 'Unknown'` (prompt line 56
and fallback body line 84). -/
def substPaymentMethod (paymentMethodDetails : JsValue) : String :=
  jsTemplate (jsOr (getPropOpt paymentMethodDetails "type") (JsValue.str "Unknown"))

/-- The prompt template literal (`src/server.js` lines 48-63).  Throws exactly
when a sub-expression throws (property access on a `null`/`undefined` payment,
or `.toUpperCase()` on a non-string, non-nullish `currency`). -/
def promptOf (failedPayment : JsValue) : Except String String := do
  let customer ← getProp failedPayment "customer"
  let amount ← getProp failedPayment "amount"
  let currency ← getProp failedPayment "currency"
  let currencyUpper ← jsToUpperCaseOpt currency
  let failureCode ← getProp failedPayment "failure_code"
  let failureMessage ← getProp failedPayment "failure_message"
  let pmd ← getProp failedPayment "payment_method_details"
  pure ("Generate a professional email alert for a failed payment with the following details:\n    \nCustomer: "
    ++ substCustomerName customer
    ++ "\nEmail: " ++ substCustomerEmail customer
    ++ "\nAmount: $" ++ jsAmountFixed amount
    ++ "\nCurrency: " ++ substCurrency currencyUpper
    ++ "\nFailure Code: " ++ substFailureCode failureCode
    ++ "\nFailure Message: " ++ substFailureReason failureMessage
    ++ "\nPayment Method: " ++ substPaymentMethod pmd
    ++ "\n\nPlease create:\n1. A clear subject line\n2. A professional email body that includes next steps\n3. Keep it concise but informative\n\nFormat as JSON with \"subject\" and \"body\" fields.")

/-- The fallback subject (line 76). -/
def fallbackSubject (failedPayment : JsValue) : Except String String := do
  let amount ← getProp failedPayment "amount"
  let customer ← getProp failedPayment "customer"
  pure ("🚨 Payment Failed - $" ++ jsAmountFixed amount ++ " from " ++ substSubjectEmail customer)

/-- The fallback body template literal (lines 77-91). -/
def fallbackBody (failedPayment : JsValue) : Except String String := do
  let customer ← getProp failedPayment "customer"
  let amount ← getProp failedPayment "amount"
  let currency ← getProp failedPayment "currency"
  let currencyUpper ← jsToUpperCaseOpt currency
  let failureMessage ← getProp failedPayment "failure_message"
  let failureCode ← getProp failedPayment "failure_code"
  let pmd ← getProp failedPayment "payment_method_details"
  pure ("A payment has failed in your Stripe account.\n\nDetails:\n- Customer: "
    ++ substCustomerName customer
    ++ " (" ++ substCustomerEmail customer
    ++ ")\n- Amount: $" ++ jsAmountFixed amount
    ++ " " ++ substCurrency currencyUpper
    ++ "\n- Failure Reason: " ++ substFailureReason failureMessage
    ++ "\n- Failure Code: " ++ substFailureCode failureCode
    ++ "\n- Payment Method: " ++ substPaymentMethod pmd
    ++ "\n\nNext Steps:\n1. Review the failure reason above\n2. Contact the customer if needed\n3. Check your Stripe dashboard for more details\n\nThis is an automated alert from your Stripe monitoring system.")

/-- The object literal returned by the `catch` branch of
`generateEmailContent` (lines 75-92). -/
def fallbackContent (failedPayment : JsValue) : Except String JsValue := do
  let subject ← fallbackSubject failedPayment
  let body ← fallbackBody failedPayment
  pure (JsValue.obj [("subject", JsValue.str subject), ("body", JsValue.str body)])

/-- `generateEmailContent(failedPayment)` (lines 46-94).  Returns the ordered
`addLog` calls it performs together with its outcome: `Except.ok` the returned
value, or `Except.error` when the function itself throws (which the source can
do only if the `catch` branch throws while building the fallback).  The `try`
branch builds the prompt, makes the completion call, and returns
`JSON.parse(completion.choices[0].message.content)` unvalidated; any throw in
it lands in the `catch` branch, which logs an error and builds the fallback. -/
def generateEmailContent (failedPayment : JsValue) (lm : LMResult) (ts : String) :
    List LogEntry × Except String JsValue :=
  let attempt : Except String JsValue := do
    let _ ← promptOf failedPayment
    match lm with
    | LMResult.fail e => Except.error e
    | LMResult.respond parsed => parsed
  match attempt with
  | Except.ok v => ([], Except.ok v)
  | Except.error e =>
    let l := mkEntry ts "error" "Failed to generate email content with OpenAI" (JsValue.str e)
    match fallbackContent failedPayment with
    | Except.ok fb => ([l], Except.ok fb)
    | Except.error e2 => ([l], Except.error e2)

/-- The `mailOptions` object literal (lines 101-107). -/
structure MailOptions where
  fromAddr : String
  toAddr : String
  subject : JsValue
  text : JsValue
  html : String

/-- Build the `mailOptions` literal from the generated content (lines
101-107).  Throws exactly when `emailContent.subject`/`emailContent.body`
cannot be read (content is `null`/`undefined`) or when `emailContent.body` is
not a string (`.replace` on a non-string). -/
def mailOptionsOf (env : Env) (emailContent : JsValue) : Except String MailOptions := do
  let subject ← getProp emailContent "subject"
  let text ← getProp emailContent "body"
  let html ← jsReplaceNewlines text
  pure (MailOptions.mk
    (jsEnvOr env.ALERT_EMAIL "stripe-monitor@yourdomain.com")
    (jsEnvOr env.ALERT_EMAIL "admin@yourdomain.com")
    subject text html)

/-- `sendEmailAlert(failedPayment)` (lines 97-116): obtain content, build the
mail message, submit it; every throw (including one escaping
`generateEmailContent` and a rejected `sendMail`) is caught, logged and turned
into `false`.  Returns the ordered `addLog` calls and the boolean result. -/
def sendEmailAlert (env : Env) (failedPayment : JsValue) (lm : LMResult) (mail : MailResult)
    (ts : String) : List LogEntry × Bool :=
  let genLogs := (generateEmailContent failedPayment lm ts).1
  match (generateEmailContent failedPayment lm ts).2 with
  | Except.error e =>
    (genLogs ++ [mkEntry ts "error" "Failed to send email alert" (JsValue.str e)], false)
  | Except.ok emailContent =>
    match mailOptionsOf env emailContent with
    | Except.error e =>
      (genLogs ++ [mkEntry ts "error" "Failed to send email alert" (JsValue.str e)], false)
    | Except.ok _mailOptions =>
      match mail with
      | MailResult.sent messageId =>
        (genLogs ++ [mkEntry ts "info" "Email alert sent successfully"
          (JsValue.obj [("messageId", JsValue.str messageId)])], true)
      | MailResult.fail e =>
        (genLogs ++ [mkEntry ts "error" "Failed to send email alert" (JsValue.str e)], false)

/-- An HTTP response body: a JSON document (`res.json(...)`) or plain text
(`res.send(...)`). -/
inductive RespBody where
  | json (v : JsValue)
  | text (s : String)

/-- The observable outcome of one handler invocation: HTTP status and body,
the ordered `addLog` calls performed, and the number of `sendEmailAlert`
invocations (dispatch attempts). -/
structure HandlerOut where
  status : Nat
  body : RespBody
  logCalls : List LogEntry
  dispatches : Nat

/-- The recognized failure event names (`src/server.js` lines 194-196); the
source compares `event.type` with `===`, so only equal strings match. -/
def isFailureEventType (ty : JsValue) : Bool :=
  match ty with
  | JsValue.str s =>
    s == "payment_intent.payment_failed" || s == "invoice.payment_failed" || s == "charge.failed"
  | _ => false

/-- The `catch` branch of the webhook handler (lines 209-212): log the error
after whatever was already logged, respond 400 with `Webhook Error: ` plus the
thrown message. -/
def webhookFailure (e : String) (before : List LogEntry) (ts : String) : HandlerOut :=
  HandlerOut.mk 400 (RespBody.text ("Webhook Error: " ++ e))
    (before ++ [mkEntry ts "error" "Webhook processing failed" (JsValue.str e)]) 0

/-- `app.post('/webhook')` (lines 189-213).  `parsed` is the outcome of
`JSON.parse(req.body)` on the raw request body.  On a recognized failure
event the handler logs a warning whose data object reads `amount`, `customer`
and `failure_code` off `event.data.object` (each read throws when the base
value is `null`/`undefined`), dispatches the alert, and acknowledges; any
throw reaches the `catch` branch. -/
def webhookHandler (parsed : Except String JsValue) (env : Env) (lm : LMResult)
    (mail : MailResult) (ts : String) : HandlerOut :=
  match parsed with
  | Except.error e => webhookFailure e [] ts
  | Except.ok event =>
    match getProp event "type" with
    | Except.error e => webhookFailure e [] ts
    | Except.ok ty =>
      let infoEntry := mkEntry ts "info" ("Received Stripe event: " ++ jsTemplate ty) JsValue.null
      if isFailureEventType ty then
        match getProp event "data" with
        | Except.error e => webhookFailure e [infoEntry] ts
        | Except.ok d =>
          match getProp d "object" with
          | Except.error e => webhookFailure e [infoEntry] ts
          | Except.ok paymentData =>
            match getProp paymentData "amount" with
            | Except.error e => webhookFailure e [infoEntry] ts
            | Except.ok a =>
              match getProp paymentData "customer" with
              | Except.error e => webhookFailure e [infoEntry] ts
              | Except.ok c =>
                match getProp paymentData "failure_code" with
                | Except.error e => webhookFailure e [infoEntry] ts
                | Except.ok f =>
                  let warnEntry := mkEntry ts "warning" "Payment failure detected"
                    (JsValue.obj [("amount", a), ("customer", c), ("failure_code", f)])
                  HandlerOut.mk 200 (RespBody.json (JsValue.obj [("received", JsValue.bool true)]))
                    (infoEntry :: warnEntry :: (sendEmailAlert env paymentData lm mail ts).1) 1
      else
        HandlerOut.mk 200 (RespBody.json (JsValue.obj [("received", JsValue.bool true)]))
          [infoEntry] 0

/-- The synthetic `testPayment` literal (lines 158-170). -/
def testPayment : JsValue :=
  JsValue.obj
    [("amount", JsValue.num 2999),
     ("currency", JsValue.str "usd"),
     ("failure_code", JsValue.str "card_declined"),
     ("failure_message", JsValue.str "Your card was declined."),
     ("customer", JsValue.obj
       [("name", JsValue.str "Test Customer"),
        ("email", JsValue.str "test@example.com")]),
     ("payment_method_details", JsValue.obj [("type", JsValue.str "card")])]

/-- `app.post('/test')` (lines 155-186).  The `catch` branch (status 500) is
unreachable because `sendEmailAlert` catches every failure internally and
resolves to a boolean, so the handler always responds 200 with
`{success, message, testPayment}`. -/
def testHandler (env : Env) (lm : LMResult) (mail : MailResult) (ts : String) : HandlerOut :=
  let firstEntry := mkEntry ts "info" "Manual test triggered" JsValue.null
  let success := (sendEmailAlert env testPayment lm mail ts).2
  HandlerOut.mk 200
    (RespBody.json (JsValue.obj
      [("success", JsValue.bool success),
       ("message", JsValue.str
         (if success then "Test email sent successfully!" else "Test email failed to send")),
       ("testPayment", testPayment)]))
    (firstEntry :: (sendEmailAlert env testPayment lm mail ts).1) 1

/-- The `environment` object of the `/health` response (lines 139-143). -/
structure HealthEnvironment where
  stripe_configured : Bool
  openai_configured : Bool
  email_configured : Bool

/-- `app.get('/health')` (lines 134-145), restricted to its `environment`
object; status, timestamp and uptime carry no configuration information. -/
def healthEnvironment (env : Env) : HealthEnvironment :=
  HealthEnvironment.mk
    (envTruthy env.STRIPE_SECRET_KEY)
    (envTruthy env.OPENAI_API_KEY)
    (envTruthy env.ALERT_EMAIL)

/-- The semantic failed-payment record of the specification (§3): `amount` in
integer minor units, every other field optional. -/
structure Customer where
  name : Option String
  email : Option String

/-- The `payment_method_details` sub-record. -/
structure PaymentMethodDetails where
  type : Option String

/-- The `FailedPayment` record of the specification's data model. -/
structure FailedPayment where
  amount : Int
  currency : Option String
  failure_code : Option String
  failure_message : Option String
  customer : Option Customer
  payment_method_details : Option PaymentMethodDetails

/-- Encode an optional string field value; a missing optional field is encoded
as an `undefined`-valued field, which is indistinguishable from an absent
field under every property access the program performs. -/
def jsOptStr (v : Option String) : JsValue :=
  match v with
  | none => JsValue.undef
  | some s => JsValue.str s

/-- The customer object a `FailedPayment` denotes. -/
def Customer.toJs (c : Customer) : JsValue :=
  JsValue.obj [("name", jsOptStr c.name), ("email", jsOptStr c.email)]

/-- The JavaScript object a `FailedPayment` denotes. -/
def FailedPayment.toJs (fp : FailedPayment) : JsValue :=
  JsValue.obj
    [("amount", JsValue.num fp.amount),
     ("currency", jsOptStr fp.currency),
     ("failure_code", jsOptStr fp.failure_code),
     ("failure_message", jsOptStr fp.failure_message),
     ("customer", match fp.customer with
       | none => JsValue.undef
       | some c => c.toJs),
     ("payment_method_details", match fp.payment_method_details with
       | none => JsValue.undef
       | some p => JsValue.obj [("type", jsOptStr p.type)])]

/-- Modelled from the spec: an `AlertContent` is an object with string
`subject` and `body` fields (§3: `AlertContent: {subject: string, body:
string}`).  Used to compare the generator's actual return value against the
shape the specification promises. -/
def isSpecAlertContent (v : JsValue) : Bool :=
  match v with
  | JsValue.obj fields =>
    (match jsLookup fields "subject", jsLookup fields "body" with
     | JsValue.str _, JsValue.str _ => true
     | _, _ => false)
  | _ => false

/-! ## Log buffer lemmas -/

/-- `addLog` either plainly appends (buffer below capacity) or evicts exactly
the oldest entry and appends. -/
theorem pushLog_eq (buf : List LogEntry) (e : LogEntry) :
    pushLog buf e = if 100 ≤ buf.length then buf.tail ++ [e] else buf ++ [e] := by
  unfold pushLog
  by_cases h : 100 ≤ buf.length
  · have h1 : (buf ++ [e]).length > 100 := by simp [List.length_append]; omega
    rw [if_pos h1, if_pos h]
    cases buf with
    | nil => simp at h
    | cons x xs => simp
  · have h1 : ¬ (buf ++ [e]).length > 100 := by simp [List.length_append]; omega
    rw [if_neg h1, if_neg h]

theorem pushLog_length_le (buf : List LogEntry) (e : LogEntry) (h : buf.length ≤ 100) :
    (pushLog buf e).length ≤ 100 := by
  rw [pushLog_eq]
  by_cases h100 : 100 ≤ buf.length
  · rw [if_pos h100]
    cases buf with
    | nil => simp
    | cons x xs =>
      simp only [List.tail_cons, List.length_append, List.length_singleton]
      simp only [List.length_cons] at h
      omega
  · rw [if_neg h100]
    simp only [List.length_append, List.length_singleton]
    omega

/-- Folding `pushLog` over a below-capacity buffer keeps exactly the last 100
entries of the concatenation. -/
theorem foldl_pushLog (es : List LogEntry) : ∀ buf : List LogEntry, buf.length ≤ 100 →
    List.foldl pushLog buf es = (buf ++ es).drop (buf.length + es.length - 100) := by
  induction es with
  | nil =>
    intro buf h
    simp [Nat.sub_eq_zero_of_le h]
  | cons e rest ih =>
    intro buf h
    rw [List.foldl_cons]
    by_cases h100 : 100 ≤ buf.length
    · have hlen : buf.length = 100 := by omega
      have hp : pushLog buf e = (buf ++ [e]).drop 1 := by
        unfold pushLog
        rw [if_pos (by simp [List.length_append]; omega)]
      have hplen : ((buf ++ [e]).drop 1).length = 100 := by
        rw [List.length_drop, List.length_append]
        simp [hlen]
      rw [hp, ih _ (le_of_eq hplen), hplen]
      have hd : ((buf ++ [e]).drop 1) ++ rest = ((buf ++ [e]) ++ rest).drop 1 :=
        (List.drop_append_of_le_length (show (1 : Nat) ≤ (buf ++ [e]).length by simp)).symm
      rw [hd, List.drop_drop]
      have hassoc : (buf ++ [e]) ++ rest = buf ++ e :: rest := by simp
      rw [hassoc]
      congr 1
      simp only [List.length_cons]
      omega
    · have hp : pushLog buf e = buf ++ [e] := by
        unfold pushLog
        rw [if_neg (by simp [List.length_append]; omega)]
      rw [hp, ih _ (by simp [List.length_append]; omega)]
      have hassoc : (buf ++ [e]) ++ rest = buf ++ e :: rest := by simp
      rw [hassoc]
      congr 1
      simp only [List.length_append, List.length_cons, List.length_singleton, List.length_nil]
      omega

/-- C3: The log buffer never exceeds 100 entries: for every sequence of N
appends with N > 100 (starting from the empty buffer the process starts
with), the buffer's length equals 100 and its contents are exactly the last
100 appended entries in their original insertion order (`List.drop
(es.length - 100) es` is precisely that suffix).  The final conjunct records
that an append, `addLog`, performs exactly the buffer step `pushLog` on the
entry it creates. -/
theorem addLog_buffer_bounded (es : List LogEntry) (hN : 100 < es.length) :
    (List.foldl pushLog [] es).length = 100
    ∧ List.foldl pushLog [] es = es.drop (es.length - 100)
    ∧ ∀ (ts level message : String) (data : JsValue) (logs : List LogEntry),
        addLog ts level message data logs = pushLog logs (mkEntry ts level message data) := by
  have hf := foldl_pushLog es [] (by simp)
  simp only [List.nil_append, List.length_nil, Nat.zero_add] at hf
  refine ⟨?_, hf, fun ts level message data logs => rfl⟩
  rw [hf, List.length_drop]
  omega

/-- Witness for `addLog_buffer_bounded`: 101 concrete appends leave a buffer
of length 100 holding entries 1..100. -/
theorem addLog_buffer_bounded_witness :
    100 < ((List.range 101).map (fun i => mkEntry "t" "info" (toString i) JsValue.null)).length
    ∧ ((List.foldl pushLog [] ((List.range 101).map (fun i => mkEntry "t" "info" (toString i) JsValue.null))).length = 100
      ∧ List.foldl pushLog [] ((List.range 101).map (fun i => mkEntry "t" "info" (toString i) JsValue.null))
          = ((List.range 101).map (fun i => mkEntry "t" "info" (toString i) JsValue.null)).drop
              (((List.range 101).map (fun i => mkEntry "t" "info" (toString i) JsValue.null)).length - 100)
      ∧ ∀ (ts level message : String) (data : JsValue) (logs : List LogEntry),
          addLog ts level message data logs = pushLog logs (mkEntry ts level message data)) :=
  ⟨by simp, addLog_buffer_bounded _ (by simp)⟩

/-- C10: every `addLog` call appends exactly one new entry — built from its
arguments — at the end of the buffer; when the buffer is below 100 entries
every previously retained entry is kept, otherwise exactly the single oldest
entry is evicted; in both cases the survivors keep their contents and
relative order (they are literally the same list elements), and since the
model is a pure list of immutable records, no operation modifies an entry
after it is appended. -/
theorem addLog_frame (ts level message : String) (data : JsValue) (logs : List LogEntry) :
    (logs.length < 100 ∧ addLog ts level message data logs = logs ++ [mkEntry ts level message data])
    ∨ (100 ≤ logs.length ∧ addLog ts level message data logs = logs.tail ++ [mkEntry ts level message data]) := by
  unfold addLog
  rw [pushLog_eq]
  by_cases h : 100 ≤ logs.length
  · right
    exact ⟨h, by rw [if_pos h]⟩
  · left
    exact ⟨by omega, by rw [if_neg h]⟩

/-! ## Generator lemmas -/

/-- Building the prompt from the object a `FailedPayment` denotes never
throws. -/
theorem promptOf_toJs (fp : FailedPayment) : ∃ s, promptOf fp.toJs = Except.ok s := by
  obtain ⟨amount, currency, fcode, fmsg, cust, pmd⟩ := fp
  cases currency with
  | none => exact ⟨_, rfl⟩
  | some c => exact ⟨_, rfl⟩

/-- Building the fallback content from the object a `FailedPayment` denotes
never throws, and always yields an object with string `subject` and `body`. -/
theorem fallbackContent_toJs (fp : FailedPayment) :
    ∃ s b, fallbackContent fp.toJs
      = Except.ok (JsValue.obj [("subject", JsValue.str s), ("body", JsValue.str b)]) := by
  obtain ⟨amount, currency, fcode, fmsg, cust, pmd⟩ := fp
  cases currency with
  | none => exact ⟨_, _, rfl⟩
  | some c => exact ⟨_, _, rfl⟩

/-- C4 (amended): the generator never throws on any `FailedPayment`: on every
collaborator failure — rejected call or unparseable response — it logs and
returns the deterministic fallback `{subject, body}` object (which is a
well-formed `AlertContent`), and on a successful call whose response text
parses it returns the parsed JSON value verbatim (which need not be an
`AlertContent`; see the counterexample). -/
theorem generateEmailContent_total (fp : FailedPayment) (ts e : String) :
    (∃ v, fallbackContent fp.toJs = Except.ok v
      ∧ (generateEmailContent fp.toJs (LMResult.fail e) ts).2 = Except.ok v
      ∧ (generateEmailContent fp.toJs (LMResult.respond (Except.error e)) ts).2 = Except.ok v
      ∧ isSpecAlertContent v = true)
    ∧ (∀ w, (generateEmailContent fp.toJs (LMResult.respond (Except.ok w)) ts).2 = Except.ok w) := by
  obtain ⟨p, hp⟩ := promptOf_toJs fp
  obtain ⟨s, b, hfb⟩ := fallbackContent_toJs fp
  constructor
  · refine ⟨JsValue.obj [("subject", JsValue.str s), ("body", JsValue.str b)], hfb, ?_, ?_, rfl⟩
    · simp [generateEmailContent, hp, hfb, Bind.bind, Except.bind]
    · simp [generateEmailContent, hp, hfb, Bind.bind, Except.bind]
  · intro w
    simp [generateEmailContent, hp, Bind.bind, Except.bind]

/-- The concrete payment used for the C4 counterexample. -/
def fpC4 : FailedPayment := FailedPayment.mk 2999 none none none none none

/-- C4 counterexample: when the collaborator succeeds and its response text
parses — here to the JSON number `42` — `generateEmailContent` returns that
parsed value unvalidated, which is not an `AlertContent` `{subject, body}`
object; the claim that it always returns an `AlertContent` is false. -/
theorem generateEmailContent_not_alertContent :
    (generateEmailContent fpC4.toJs (LMResult.respond (Except.ok (JsValue.num 42))) "t").2
      = Except.ok (JsValue.num 42)
    ∧ isSpecAlertContent (JsValue.num 42) = false :=
  ⟨rfl, rfl⟩

/-- C2 (amended): for every `FailedPayment` with all optional fields missing
(no customer, no failure_message, no failure_code, no payment_method_details),
the generator's fallback is built without crashing and substitutes a literal
placeholder for each missing field — `Unknown` for the customer name, the
failure code and the payment method, `Not provided` for the customer email in
the body, `Unknown Customer` for the customer email in the subject, and `No
details provided` (not `Not provided`) for the failure message. -/
theorem fallback_placeholders (amount : Int) (currency : Option String) :
    ∃ cur, fallbackContent (FailedPayment.mk amount currency none none none none).toJs
      = Except.ok (JsValue.obj
        [("subject", JsValue.str
          ("🚨 Payment Failed - $" ++ toFixedTwoOfCents amount ++ " from " ++ "Unknown Customer")),
         ("body", JsValue.str
          ("A payment has failed in your Stripe account.\n\nDetails:\n- Customer: "
            ++ "Unknown" ++ " (" ++ "Not provided"
            ++ ")\n- Amount: $" ++ toFixedTwoOfCents amount
            ++ " " ++ cur
            ++ "\n- Failure Reason: " ++ "No details provided"
            ++ "\n- Failure Code: " ++ "Unknown"
            ++ "\n- Payment Method: " ++ "Unknown"
            ++ "\n\nNext Steps:\n1. Review the failure reason above\n2. Contact the customer if needed\n3. Check your Stripe dashboard for more details\n\nThis is an automated alert from your Stripe monitoring system."))]) := by
  cases currency with
  | none => exact ⟨"USD", rfl⟩
  | some c => exact ⟨substCurrency (JsValue.str c.toUpper), rfl⟩

/-- The concrete all-optional-fields-missing payment used for the C2
counterexample. -/
def fpNoOptional : FailedPayment := FailedPayment.mk 500 none none none none none

/-- C2 counterexample: for a `FailedPayment` whose `failure_message` is
missing, the string the fallback substitutes for it — the source expression
`failedPayment.failure_message || 'No details provided'` applied to the
missing (undefined) field, i.e. `substFailureReason JsValue.undef` — is `No
details provided`, which is neither of the placeholders `Unknown` /
`Not provided` the claim asserts for every missing field; the full fallback
body shows it in place on the `Failure Reason` line. -/
theorem fallback_failure_message_placeholder :
    substFailureReason JsValue.undef = "No details provided"
    ∧ ("No details provided" : String) ≠ "Unknown"
    ∧ ("No details provided" : String) ≠ "Not provided"
    ∧ fallbackBody fpNoOptional.toJs = Except.ok
        "A payment has failed in your Stripe account.\n\nDetails:\n- Customer: Unknown (Not provided)\n- Amount: $5.00 USD\n- Failure Reason: No details provided\n- Failure Code: Unknown\n- Payment Method: Unknown\n\nNext Steps:\n1. Review the failure reason above\n2. Contact the customer if needed\n3. Check your Stripe dashboard for more details\n\nThis is an automated alert from your Stripe monitoring system." :=
  ⟨rfl, by decide, by decide, rfl⟩

/-- C7: amount formatting divides the integer minor units by 100 and renders
exactly two fraction digits: 2999 minor units display as `$29.99`, zero as
`$0.00`, and in general the rendered string is the quotient, a decimal
point, and a two-digit fraction (the remainder). -/
theorem amount_formatting :
    ("$" ++ jsAmountFixed (JsValue.num 2999)) = "$29.99"
    ∧ ("$" ++ jsAmountFixed (JsValue.num 0)) = "$0.00"
    ∧ ∀ a : Nat, ∃ frac, frac.length = 2
        ∧ jsAmountFixed (JsValue.num (a : Int)) = toString (a / 100) ++ "." ++ frac := by
  have hlen : ∀ n : Nat, n < 100 → (twoDigits n).length = 2 := by
    intro n h
    exact (by decide : ∀ m : Fin 100, (twoDigits m.val).length = 2) ⟨n, h⟩
  refine ⟨rfl, rfl, fun a => ⟨twoDigits (a % 100), hlen _ (Nat.mod_lt a (by omega)), ?_⟩⟩
  show toFixedTwoOfCents ((a : Int)) = toString (a / 100) ++ "." ++ twoDigits (a % 100)
  unfold toFixedTwoOfCents
  rw [if_neg (by omega), Int.natAbs_ofNat, String.empty_append]

/-- C9: the three booleans in the `/health` response's `environment` object
are exactly the non-emptiness of the corresponding configuration values —
set and not the empty string — independent of their validity. -/
theorem health_booleans (env : Env) :
    ((healthEnvironment env).stripe_configured = true
      ↔ env.STRIPE_SECRET_KEY ≠ none ∧ env.STRIPE_SECRET_KEY ≠ some "")
    ∧ ((healthEnvironment env).openai_configured = true
      ↔ env.OPENAI_API_KEY ≠ none ∧ env.OPENAI_API_KEY ≠ some "")
    ∧ ((healthEnvironment env).email_configured = true
      ↔ env.ALERT_EMAIL ≠ none ∧ env.ALERT_EMAIL ≠ some "") := by
  have key : ∀ v : Option String, (envTruthy v = true ↔ v ≠ none ∧ v ≠ some "") := by
    intro v
    cases v with
    | none => simp [envTruthy]
    | some s => simp [envTruthy]
  exact ⟨key _, key _, key _⟩

/-- C5 (amended): for every generated `AlertContent` `{subject, body}` the
mail message has `subject` = the content's subject, plain-text body = the
content's body, and HTML body = the content's body with each newline replaced
by `<br>`; `from` and `to` both come from the single configured operator
address `ALERT_EMAIL` when it is set non-empty — and are then equal — but
when it is unset or empty they fall back to two distinct hard-coded defaults
(`stripe-monitor@yourdomain.com` and `admin@yourdomain.com`). -/
theorem mailOptions_fields (env : Env) (s b : String) :
    (mailOptionsOf env (JsValue.obj [("subject", JsValue.str s), ("body", JsValue.str b)])
      = Except.ok (MailOptions.mk
          (jsEnvOr env.ALERT_EMAIL "stripe-monitor@yourdomain.com")
          (jsEnvOr env.ALERT_EMAIL "admin@yourdomain.com")
          (JsValue.str s) (JsValue.str b) (b.replace "\n" "<br>")))
    ∧ (∀ a, env.ALERT_EMAIL = some a → a ≠ "" →
        jsEnvOr env.ALERT_EMAIL "stripe-monitor@yourdomain.com" = a
        ∧ jsEnvOr env.ALERT_EMAIL "admin@yourdomain.com" = a) := by
  refine ⟨rfl, fun a ha hne => ?_⟩
  rw [ha]
  simp [jsEnvOr, hne]

/-- Witness for `mailOptions_fields`: with `ALERT_EMAIL` set to a concrete
non-empty address, `from` and `to` both equal it. -/
theorem mailOptions_fields_witness :
    (Env.mk none none (some "ops@example.com") none).ALERT_EMAIL = some "ops@example.com"
    ∧ ("ops@example.com" : String) ≠ ""
    ∧ jsEnvOr (Env.mk none none (some "ops@example.com") none).ALERT_EMAIL "stripe-monitor@yourdomain.com" = "ops@example.com"
    ∧ jsEnvOr (Env.mk none none (some "ops@example.com") none).ALERT_EMAIL "admin@yourdomain.com" = "ops@example.com" := by
  have h := (mailOptions_fields (Env.mk none none (some "ops@example.com") none) "s" "b").2
    "ops@example.com" rfl (by decide)
  exact ⟨rfl, by decide, h.1, h.2⟩

/-- The environment with nothing configured, used in concrete runs. -/
def env0 : Env := Env.mk none none none none

/-- A failing text-generation collaborator, used in concrete runs. -/
def lm0 : LMResult := LMResult.fail "network error"

/-- A failing mail collaborator, used in concrete runs. -/
def mail0 : MailResult := MailResult.fail "smtp error"

/-- C5 counterexample: with no `ALERT_EMAIL` configured — and no distinct
configuration supplied anywhere — the mail message's `from` and `to` are two
different hard-coded addresses, so `from` and `to` are not the same address
taken from a single configured operator address. -/
theorem mailOptions_from_to_differ :
    mailOptionsOf env0 (JsValue.obj [("subject", JsValue.str "s"), ("body", JsValue.str "b")])
      = Except.ok (MailOptions.mk "stripe-monitor@yourdomain.com" "admin@yourdomain.com"
          (JsValue.str "s") (JsValue.str "b") ("b".replace "\n" "<br>"))
    ∧ ("stripe-monitor@yourdomain.com" : String) ≠ "admin@yourdomain.com" :=
  ⟨rfl, by decide⟩

/-! ## Warning-count lemmas for the dispatcher -/

/-- The generator logs no warning-level entry on any path. -/
theorem warningCount_generateEmailContent (fp : JsValue) (lm : LMResult) (ts : String) :
    warningCount (generateEmailContent fp lm ts).1 = 0 := by
  unfold generateEmailContent
  cases h : (do
      let _ ← promptOf fp
      match lm with
      | LMResult.fail e => Except.error e
      | LMResult.respond parsed => parsed : Except String JsValue) with
  | ok v => simp [warningCount]
  | error e =>
    cases h2 : fallbackContent fp with
    | ok fb => simp [warningCount, mkEntry, h2, List.filter]
    | error e2 => simp [warningCount, mkEntry, h2, List.filter]

/-- The dispatcher logs no warning-level entry on any path. -/
theorem warningCount_sendEmailAlert (env : Env) (fp : JsValue) (lm : LMResult)
    (mail : MailResult) (ts : String) :
    warningCount (sendEmailAlert env fp lm mail ts).1 = 0 := by
  have hgen := warningCount_generateEmailContent fp lm ts
  unfold sendEmailAlert
  cases hg : (generateEmailContent fp lm ts).2 with
  | error e =>
    simp only [hg]
    unfold warningCount at hgen ⊢
    simp [List.filter_append, List.length_append, hgen, mkEntry, List.filter]
  | ok content =>
    simp only [hg]
    cases hm : mailOptionsOf env content with
    | error e =>
      simp only [hm]
      unfold warningCount at hgen ⊢
      simp [List.filter_append, List.length_append, hgen, mkEntry, List.filter]
    | ok opts =>
      simp only [hm]
      cases mail with
      | sent messageId =>
        unfold warningCount at hgen ⊢
        simp [List.filter_append, List.length_append, hgen, mkEntry, List.filter]
      | fail e =>
        unfold warningCount at hgen ⊢
        simp [List.filter_append, List.length_append, hgen, mkEntry, List.filter]

/-- The webhook error body is never empty. -/
theorem webhookError_ne_empty (m : String) : ("Webhook Error: " ++ m) ≠ "" := by
  intro h
  have hl : ("Webhook Error: " ++ m).length = 0 := by rw [h]; rfl
  rw [String.length_append] at hl
  have h15 : ("Webhook Error: " : String).length = 15 := rfl
  omega

/-- C1 (amended): the webhook response is decoupled from the alert outcome —
status, body and dispatch count are independent of the text-generation and
mail collaborators' behaviour; every response is either 200 with body
`{received: true}` or 400 with a non-empty `Webhook Error: ...` text body and
no dispatch attempt; and a body that fails to parse always yields the 400
response with no dispatch.  (Contrary to the claim, a successful JSON parse
does not guarantee the 200 response: a parsed value on which the handler's
field accesses throw — e.g. `null`, or a recognized event type without a
`data` object — also lands in the 400 branch; see the counterexample.) -/
theorem webhook_ack_decoupled (parsed : Except String JsValue) (env : Env) (lm lm2 : LMResult)
    (mail mail2 : MailResult) (ts : String) :
    ((webhookHandler parsed env lm mail ts).status = (webhookHandler parsed env lm2 mail2 ts).status
      ∧ (webhookHandler parsed env lm mail ts).body = (webhookHandler parsed env lm2 mail2 ts).body
      ∧ (webhookHandler parsed env lm mail ts).dispatches
          = (webhookHandler parsed env lm2 mail2 ts).dispatches)
    ∧ (((webhookHandler parsed env lm mail ts).status = 200
        ∧ (webhookHandler parsed env lm mail ts).body
            = RespBody.json (JsValue.obj [("received", JsValue.bool true)]))
      ∨ ((webhookHandler parsed env lm mail ts).status = 400
        ∧ (webhookHandler parsed env lm mail ts).dispatches = 0
        ∧ ∃ m, (webhookHandler parsed env lm mail ts).body = RespBody.text ("Webhook Error: " ++ m)
            ∧ ("Webhook Error: " ++ m) ≠ ""))
    ∧ (∀ e, (webhookHandler (Except.error e) env lm mail ts).status = 400
        ∧ (webhookHandler (Except.error e) env lm mail ts).dispatches = 0
        ∧ (webhookHandler (Except.error e) env lm mail ts).body
            = RespBody.text ("Webhook Error: " ++ e)) := by
  cases parsed with
  | error e =>
    exact ⟨⟨rfl, rfl, rfl⟩, Or.inr ⟨rfl, rfl, ⟨e, rfl, webhookError_ne_empty e⟩⟩,
      fun e' => ⟨rfl, rfl, rfl⟩⟩
  | ok v =>
    cases hty : getProp v "type" with
    | error e =>
      have h1 : ∀ (l : LMResult) (m : MailResult),
          webhookHandler (Except.ok v) env l m ts = webhookFailure e [] ts := by
        intro l m
        simp [webhookHandler, hty]
      rw [h1 lm mail, h1 lm2 mail2]
      exact ⟨⟨rfl, rfl, rfl⟩, Or.inr ⟨rfl, rfl, ⟨e, rfl, webhookError_ne_empty e⟩⟩,
        fun e' => ⟨rfl, rfl, rfl⟩⟩
    | ok ty =>
      by_cases hft : isFailureEventType ty = true
      · cases hd : getProp v "data" with
        | error e =>
          have h1 : ∀ (l : LMResult) (m : MailResult),
              webhookHandler (Except.ok v) env l m ts
                = webhookFailure e
                    [mkEntry ts "info" ("Received Stripe event: " ++ jsTemplate ty) JsValue.null] ts := by
            intro l m
            simp [webhookHandler, hty, hft, hd]
          rw [h1 lm mail, h1 lm2 mail2]
          exact ⟨⟨rfl, rfl, rfl⟩, Or.inr ⟨rfl, rfl, ⟨e, rfl, webhookError_ne_empty e⟩⟩,
            fun e' => ⟨rfl, rfl, rfl⟩⟩
        | ok d =>
          cases hobj : getProp d "object" with
          | error e =>
            have h1 : ∀ (l : LMResult) (m : MailResult),
                webhookHandler (Except.ok v) env l m ts
                  = webhookFailure e
                      [mkEntry ts "info" ("Received Stripe event: " ++ jsTemplate ty) JsValue.null] ts := by
              intro l m
              simp [webhookHandler, hty, hft, hd, hobj]
            rw [h1 lm mail, h1 lm2 mail2]
            exact ⟨⟨rfl, rfl, rfl⟩, Or.inr ⟨rfl, rfl, ⟨e, rfl, webhookError_ne_empty e⟩⟩,
              fun e' => ⟨rfl, rfl, rfl⟩⟩
          | ok pd =>
            cases ha : getProp pd "amount" with
            | error e =>
              have h1 : ∀ (l : LMResult) (m : MailResult),
                  webhookHandler (Except.ok v) env l m ts
                    = webhookFailure e
                        [mkEntry ts "info" ("Received Stripe event: " ++ jsTemplate ty) JsValue.null] ts := by
                intro l m
                simp [webhookHandler, hty, hft, hd, hobj, ha]
              rw [h1 lm mail, h1 lm2 mail2]
              exact ⟨⟨rfl, rfl, rfl⟩, Or.inr ⟨rfl, rfl, ⟨e, rfl, webhookError_ne_empty e⟩⟩,
                fun e' => ⟨rfl, rfl, rfl⟩⟩
            | ok a =>
              cases hc : getProp pd "customer" with
              | error e =>
                have h1 : ∀ (l : LMResult) (m : MailResult),
                    webhookHandler (Except.ok v) env l m ts
                      = webhookFailure e
                          [mkEntry ts "info" ("Received Stripe event: " ++ jsTemplate ty) JsValue.null] ts := by
                  intro l m
                  simp [webhookHandler, hty, hft, hd, hobj, ha, hc]
                rw [h1 lm mail, h1 lm2 mail2]
                exact ⟨⟨rfl, rfl, rfl⟩, Or.inr ⟨rfl, rfl, ⟨e, rfl, webhookError_ne_empty e⟩⟩,
                  fun e' => ⟨rfl, rfl, rfl⟩⟩
              | ok c =>
                cases hf : getProp pd "failure_code" with
                | error e =>
                  have h1 : ∀ (l : LMResult) (m : MailResult),
                      webhookHandler (Except.ok v) env l m ts
                        = webhookFailure e
                            [mkEntry ts "info" ("Received Stripe event: " ++ jsTemplate ty) JsValue.null] ts := by
                    intro l m
                    simp [webhookHandler, hty, hft, hd, hobj, ha, hc, hf]
                  rw [h1 lm mail, h1 lm2 mail2]
                  exact ⟨⟨rfl, rfl, rfl⟩, Or.inr ⟨rfl, rfl, ⟨e, rfl, webhookError_ne_empty e⟩⟩,
                    fun e' => ⟨rfl, rfl, rfl⟩⟩
                | ok f =>
                  have h1 : ∀ (l : LMResult) (m : MailResult),
                      webhookHandler (Except.ok v) env l m ts
                        = HandlerOut.mk 200
                            (RespBody.json (JsValue.obj [("received", JsValue.bool true)]))
                            (mkEntry ts "info" ("Received Stripe event: " ++ jsTemplate ty) JsValue.null
                              :: mkEntry ts "warning" "Payment failure detected"
                                  (JsValue.obj [("amount", a), ("customer", c), ("failure_code", f)])
                              :: (sendEmailAlert env pd l m ts).1) 1 := by
                    intro l m
                    simp [webhookHandler, hty, hft, hd, hobj, ha, hc, hf]
                  rw [h1 lm mail, h1 lm2 mail2]
                  exact ⟨⟨rfl, rfl, rfl⟩, Or.inl ⟨rfl, rfl⟩, fun e' => ⟨rfl, rfl, rfl⟩⟩
      · have h1 : ∀ (l : LMResult) (m : MailResult),
            webhookHandler (Except.ok v) env l m ts
              = HandlerOut.mk 200 (RespBody.json (JsValue.obj [("received", JsValue.bool true)]))
                  [mkEntry ts "info" ("Received Stripe event: " ++ jsTemplate ty) JsValue.null] 0 := by
          intro l m
          simp [webhookHandler, hty, hft]
        rw [h1 lm mail, h1 lm2 mail2]
        exact ⟨⟨rfl, rfl, rfl⟩, Or.inl ⟨rfl, rfl⟩, fun e' => ⟨rfl, rfl, rfl⟩⟩

/-- C1 counterexample: the raw body `null` parses as JSON, yet the handler
responds 400, not 200 — reading `event.type` off the parsed `null` throws and
lands in the `catch` branch.  So a successful parse does not imply the 200
`{received: true}` response. -/
theorem webhook_parsed_but_400 :
    (webhookHandler (Except.ok JsValue.null) env0 lm0 mail0 "t").status = 400
    ∧ (webhookHandler (Except.ok JsValue.null) env0 lm0 mail0 "t").status ≠ 200
    ∧ (webhookHandler (Except.ok JsValue.null) env0 lm0 mail0 "t").dispatches = 0 :=
  ⟨rfl, by decide, rfl⟩

/-- Property access cannot throw except on `null`/`undefined`. -/
theorem getProp_ok_of_ne (pd : JsValue) (k : String) (h1 : pd ≠ JsValue.null)
    (h2 : pd ≠ JsValue.undef) : ∃ x, getProp pd k = Except.ok x := by
  cases pd with
  | null => exact absurd rfl h1
  | undef => exact absurd rfl h2
  | bool b => exact ⟨_, rfl⟩
  | num n => exact ⟨_, rfl⟩
  | str s => exact ⟨_, rfl⟩
  | arr elems => exact ⟨_, rfl⟩
  | obj fields => exact ⟨_, rfl⟩

/-- C6 (amended): for every parsed webhook event value: (1) an accessible but
unrecognized event type yields the 200 `{received: true}` acknowledgement
with no dispatch attempt and no warning log call; (2) a recognized failure
type whose `data.object` exists and supports field access yields the same
acknowledgement with exactly one dispatch attempt and exactly one
warning-level log call; (3) a recognized failure type whose payload
extraction throws (`data` missing/`null`, or `data.object` missing/`null`)
yields a 400 response with no dispatch and no warning; (4) a parsed value on
which reading `type` throws (`null`) likewise yields 400 with no dispatch
and no warning.  (Contrary to the claim, cases (3) and (4) show that a
recognized type does not guarantee a dispatch, and an unrecognized-type
event does not always get the 200 acknowledgement.) -/
theorem webhook_event_dispatch (v : JsValue) (env : Env) (lm : LMResult) (mail : MailResult)
    (ts : String) :
    (∀ ty, getProp v "type" = Except.ok ty → isFailureEventType ty = false →
        (webhookHandler (Except.ok v) env lm mail ts).status = 200
        ∧ (webhookHandler (Except.ok v) env lm mail ts).body
            = RespBody.json (JsValue.obj [("received", JsValue.bool true)])
        ∧ (webhookHandler (Except.ok v) env lm mail ts).dispatches = 0
        ∧ warningCount (webhookHandler (Except.ok v) env lm mail ts).logCalls = 0)
    ∧ (∀ ty d pd, getProp v "type" = Except.ok ty → isFailureEventType ty = true →
        getProp v "data" = Except.ok d → getProp d "object" = Except.ok pd →
        pd ≠ JsValue.null → pd ≠ JsValue.undef →
        (webhookHandler (Except.ok v) env lm mail ts).status = 200
        ∧ (webhookHandler (Except.ok v) env lm mail ts).body
            = RespBody.json (JsValue.obj [("received", JsValue.bool true)])
        ∧ (webhookHandler (Except.ok v) env lm mail ts).dispatches = 1
        ∧ warningCount (webhookHandler (Except.ok v) env lm mail ts).logCalls = 1)
    ∧ (∀ ty, getProp v "type" = Except.ok ty → isFailureEventType ty = true →
        (∀ e, getProp v "data" = Except.error e →
          (webhookHandler (Except.ok v) env lm mail ts).status = 400
          ∧ (webhookHandler (Except.ok v) env lm mail ts).dispatches = 0
          ∧ warningCount (webhookHandler (Except.ok v) env lm mail ts).logCalls = 0)
        ∧ (∀ d e, getProp v "data" = Except.ok d → getProp d "object" = Except.error e →
          (webhookHandler (Except.ok v) env lm mail ts).status = 400
          ∧ (webhookHandler (Except.ok v) env lm mail ts).dispatches = 0
          ∧ warningCount (webhookHandler (Except.ok v) env lm mail ts).logCalls = 0)
        ∧ (∀ d pd, getProp v "data" = Except.ok d → getProp d "object" = Except.ok pd →
          (pd = JsValue.null ∨ pd = JsValue.undef) →
          (webhookHandler (Except.ok v) env lm mail ts).status = 400
          ∧ (webhookHandler (Except.ok v) env lm mail ts).dispatches = 0
          ∧ warningCount (webhookHandler (Except.ok v) env lm mail ts).logCalls = 0))
    ∧ (∀ e, getProp v "type" = Except.error e →
        (webhookHandler (Except.ok v) env lm mail ts).status = 400
        ∧ (webhookHandler (Except.ok v) env lm mail ts).dispatches = 0
        ∧ warningCount (webhookHandler (Except.ok v) env lm mail ts).logCalls = 0) := by
  refine ⟨?_, ?_, ?_, ?_⟩
  · intro ty hty hft
    have h1 : webhookHandler (Except.ok v) env lm mail ts
        = HandlerOut.mk 200 (RespBody.json (JsValue.obj [("received", JsValue.bool true)]))
            [mkEntry ts "info" ("Received Stripe event: " ++ jsTemplate ty) JsValue.null] 0 := by
      simp [webhookHandler, hty, hft]
    rw [h1]
    exact ⟨rfl, rfl, rfl, by simp [warningCount, mkEntry, List.filter]⟩
  · intro ty d pd hty hft hdd hobj hn hu
    obtain ⟨a, ha⟩ := getProp_ok_of_ne pd "amount" hn hu
    obtain ⟨c, hc⟩ := getProp_ok_of_ne pd "customer" hn hu
    obtain ⟨f, hf⟩ := getProp_ok_of_ne pd "failure_code" hn hu
    have h1 : webhookHandler (Except.ok v) env lm mail ts
        = HandlerOut.mk 200 (RespBody.json (JsValue.obj [("received", JsValue.bool true)]))
            (mkEntry ts "info" ("Received Stripe event: " ++ jsTemplate ty) JsValue.null
              :: mkEntry ts "warning" "Payment failure detected"
                  (JsValue.obj [("amount", a), ("customer", c), ("failure_code", f)])
              :: (sendEmailAlert env pd lm mail ts).1) 1 := by
      simp [webhookHandler, hty, hft, hdd, hobj, ha, hc, hf]
    rw [h1]
    have hs := warningCount_sendEmailAlert env pd lm mail ts
    unfold warningCount at hs ⊢
    refine ⟨rfl, rfl, rfl, ?_⟩
    simp [mkEntry, List.filter, hs]
  · intro ty hty hft
    refine ⟨?_, ?_, ?_⟩
    · intro e hdd
      have h1 : webhookHandler (Except.ok v) env lm mail ts
          = webhookFailure e
              [mkEntry ts "info" ("Received Stripe event: " ++ jsTemplate ty) JsValue.null] ts := by
        simp [webhookHandler, hty, hft, hdd]
      rw [h1]
      exact ⟨rfl, rfl, by simp [warningCount, webhookFailure, mkEntry, List.filter]⟩
    · intro d e hdd hobj
      have h1 : webhookHandler (Except.ok v) env lm mail ts
          = webhookFailure e
              [mkEntry ts "info" ("Received Stripe event: " ++ jsTemplate ty) JsValue.null] ts := by
        simp [webhookHandler, hty, hft, hdd, hobj]
      rw [h1]
      exact ⟨rfl, rfl, by simp [warningCount, webhookFailure, mkEntry, List.filter]⟩
    · intro d pd hdd hobj hpd
      have ha : ∃ e, getProp pd "amount" = Except.error e := by
        cases hpd with
        | inl h => exact ⟨_, by rw [h]; rfl⟩
        | inr h => exact ⟨_, by rw [h]; rfl⟩
      obtain ⟨e, ha⟩ := ha
      have h1 : webhookHandler (Except.ok v) env lm mail ts
          = webhookFailure e
              [mkEntry ts "info" ("Received Stripe event: " ++ jsTemplate ty) JsValue.null] ts := by
        simp [webhookHandler, hty, hft, hdd, hobj, ha]
      rw [h1]
      exact ⟨rfl, rfl, by simp [warningCount, webhookFailure, mkEntry, List.filter]⟩
  · intro e hty
    have h1 : webhookHandler (Except.ok v) env lm mail ts = webhookFailure e [] ts := by
      simp [webhookHandler, hty]
    rw [h1]
    exact ⟨rfl, rfl, by simp [warningCount, webhookFailure, mkEntry, List.filter]⟩

/-- The malformed recognized event used for the C6 counterexample. -/
def vBad : JsValue := JsValue.obj [("type", JsValue.str "charge.failed")]

/-- C6 counterexample: a parsed event whose type is the recognized failure
name `charge.failed` but which carries no `data` object produces no dispatch
attempt, no warning log entry, and a 400 response instead of the claimed
one-warning / one-dispatch / 200 outcome — reading `event.data.object`
throws. -/
theorem webhook_recognized_without_dispatch :
    isFailureEventType (JsValue.str "charge.failed") = true
    ∧ (webhookHandler (Except.ok vBad) env0 lm0 mail0 "t").dispatches = 0
    ∧ warningCount (webhookHandler (Except.ok vBad) env0 lm0 mail0 "t").logCalls = 0
    ∧ (webhookHandler (Except.ok vBad) env0 lm0 mail0 "t").status = 400
    ∧ (webhookHandler (Except.ok vBad) env0 lm0 mail0 "t").status ≠ 200 :=
  ⟨rfl, rfl, rfl, rfl, by decide⟩

/-- The specification's example webhook event
`{"type":"payment_intent.payment_failed","data":{"object":{"amount":500,"currency":"usd"}}}`. -/
def vExample : JsValue :=
  JsValue.obj
    [("type", JsValue.str "payment_intent.payment_failed"),
     ("data", JsValue.obj
       [("object", JsValue.obj
         [("amount", JsValue.num 500), ("currency", JsValue.str "usd")])])]

/-- Witness for `webhook_event_dispatch`: the specification's example event
takes the recognized-and-accessible branch — 200 acknowledgement, exactly one
dispatch attempt and exactly one warning log call. -/
theorem webhook_event_dispatch_witness :
    getProp vExample "type" = Except.ok (JsValue.str "payment_intent.payment_failed")
    ∧ isFailureEventType (JsValue.str "payment_intent.payment_failed") = true
    ∧ ((webhookHandler (Except.ok vExample) env0 lm0 mail0 "t").status = 200
      ∧ (webhookHandler (Except.ok vExample) env0 lm0 mail0 "t").body
          = RespBody.json (JsValue.obj [("received", JsValue.bool true)])
      ∧ (webhookHandler (Except.ok vExample) env0 lm0 mail0 "t").dispatches = 1
      ∧ warningCount (webhookHandler (Except.ok vExample) env0 lm0 mail0 "t").logCalls = 1) :=
  ⟨rfl, rfl,
    (webhook_event_dispatch vExample env0 lm0 mail0 "t").2.1
      (JsValue.str "payment_intent.payment_failed")
      (JsValue.obj [("object", JsValue.obj [("amount", JsValue.num 500), ("currency", JsValue.str "usd")])])
      (JsValue.obj [("amount", JsValue.num 500), ("currency", JsValue.str "usd")])
      rfl rfl rfl rfl (fun h => JsValue.noConfusion h) (fun h => JsValue.noConfusion h)⟩

/-- C8: every `/test` response — for every behaviour of the text-generation
and mail collaborators, hence every dispatch outcome — has status 200 and a
body carrying the `success` boolean returned by the dispatcher, the matching
message, and the literal synthetic `testPayment` object (amount 2999,
currency `usd`, code `card_declined`, the canned decline message, the test
customer, payment method `card`) echoed back. -/
theorem test_echoes_payment (env : Env) (lm : LMResult) (mail : MailResult) (ts : String) :
    (testHandler env lm mail ts).status = 200
    ∧ (testHandler env lm mail ts).body = RespBody.json (JsValue.obj
        [("success", JsValue.bool (sendEmailAlert env testPayment lm mail ts).2),
         ("message", JsValue.str (if (sendEmailAlert env testPayment lm mail ts).2
            then "Test email sent successfully!" else "Test email failed to send")),
         ("testPayment", testPayment)])
    ∧ (testHandler env lm mail ts).dispatches = 1
    ∧ testPayment = JsValue.obj
        [("amount", JsValue.num 2999),
         ("currency", JsValue.str "usd"),
         ("failure_code", JsValue.str "card_declined"),
         ("failure_message", JsValue.str "Your card was declined."),
         ("customer", JsValue.obj
           [("name", JsValue.str "Test Customer"), ("email", JsValue.str "test@example.com")]),
         ("payment_method_details", JsValue.obj [("type", JsValue.str "card")])] :=
  ⟨rfl, rfl, rfl, rfl⟩
